import Mathlib

/-!
# Verification of the adbee discovery-driven pairing/connection orchestrator

Shallow embedding of `src/adb_service.py` (classes `AdbPairingListener`,
`AdbConnectListener`, `AdbService`).  External effects — running the `adb`
subprocess, sleeping, invoking callbacks, creating/cancelling mDNS browsers —
are modelled as trace events; the nondeterministic outside world (the results
of successive external-process invocations) is a parameter `runs : Nat →
RunOutcome` indexed by a running invocation counter.  Python exceptions are
modelled explicitly: `subprocess.run(..., timeout=t)` either returns a
completed process (`RunOutcome.ok`) or raises `TimeoutExpired`
(`RunOutcome.timeout`); `try`/`except` blocks of the source are mirrored by
where the `timeout` constructor is handled in each function.
-/

namespace Adbee

/-- Result of a completed external process: `subprocess.CompletedProcess`
with `returncode`, `stdout`, `stderr` (text mode). -/
structure ProcResult where
  returncode : Int
  stdout : String
  stderr : String
deriving Repr, DecidableEq

/-- Outcome of one `subprocess.run` call: either the process completed
(`ok`), or the per-call timeout expired and `subprocess.TimeoutExpired` was
raised (`timeout`). -/
inductive RunOutcome where
  | ok (r : ProcResult)
  | timeout
deriving Repr, DecidableEq

/-- Char-list test: is the first list an initial segment of the second (helper for Python's `in` operator
on strings). -/
def isPrefixCh : List Char → List Char → Bool
  | [], _ => true
  | _ :: _, [] => false
  | a :: as, b :: bs => a == b && isPrefixCh as bs

/-- Substring containment on char lists: does `s` contain `p` as a
contiguous infix? -/
def infixCh (p : List Char) : List Char → Bool
  | [] => isPrefixCh p []
  | c :: rest => isPrefixCh p (c :: rest) || infixCh p rest

/-- Python's `pat in s` for strings: substring containment. -/
def strContains (s pat : String) : Bool :=
  infixCh pat.data s.data

/-- Python's `s.lower()` (ASCII case mapping, applied per character). -/
def strLower (s : String) : String :=
  String.mk (s.data.map Char.toLower)

/-- Success test of `AdbConnectListener._connect_device` and
`AdbService.try_connect_last_known` for one attempt:
`process.returncode == 0 and ("connected" in output or "already connected"
in output)` where `output = (process.stdout + process.stderr).lower()`. -/
def connectSuccess (r : ProcResult) : Bool :=
  let output := strLower (r.stdout ++ r.stderr)
  r.returncode == 0 && (strContains output "connected" || strContains output "already connected")

/-- Trace events of the handlers: external-tool invocations (with the
argument string and the per-call timeout in seconds), sleeps (seconds), and
callback invocations. -/
inductive Ev where
  /-- Event for `subprocess.run("adb connect <arg>".split(), ..., timeout=t)` -/
  | invokeConnect (arg : String) (timeoutSecs : Nat)
  /-- Event for `subprocess.run("adb pair <arg>".split(), ..., timeout=t)` -/
  | invokePair (arg : String) (timeoutSecs : Nat)
  /-- Event for `time.sleep(secs)` -/
  | sleep (secs : Nat)
  /-- the connect success callback invoked with the endpoint string -/
  | onConnected (endpoint : String)
  /-- Event for invoking `AdbPairingListener.on_paired` (wired to
  `AdbService.start._handle_paired`) -/
  | onPaired (ip : String)
  /-- the orchestrator's outward `on_paired` hook -/
  | onPairedHook (ip : String)
deriving Repr, DecidableEq

/-- Number of external connect-tool invocations in a trace. -/
def invokeConnectCount (evs : List Ev) : Nat :=
  (evs.filter fun e => match e with | .invokeConnect _ _ => true | _ => false).length

/-- Number of external pairing-tool invocations in a trace. -/
def invokePairCount (evs : List Ev) : Nat :=
  (evs.filter fun e => match e with | .invokePair _ _ => true | _ => false).length

/-- A resolved mDNS `ServiceInfo`: IPv4 addresses, all-family addresses,
and the announced port (`info.ip_addresses_by_version(...)`, `info.port`). -/
structure ServiceInfo where
  v4addrs : List String
  alladdrs : List String
  port : Nat
deriving Repr, DecidableEq

/-- Address resolution shared by both handlers: prefer
`IPVersion.V4Only`; if that is empty fall back to `IPVersion.All`. -/
def resolveAddresses (info : ServiceInfo) : List String :=
  if info.v4addrs.isEmpty then info.alladdrs else info.v4addrs

/-- Mutable state of `AdbConnectListener`: the deduplication set
`connected_devices` (of `"ip:port"` keys) and `last_seen_service`. -/
structure ConnListener where
  connected_devices : List String
  last_seen_service : Option (String × Nat)
deriving Repr, DecidableEq

/-- A fresh `AdbConnectListener.__init__` state. -/
def ConnListener.init : ConnListener :=
  { connected_devices := [], last_seen_service := none }

/-- How the retry loop of a connect attempt sequence ended. -/
inductive LoopEnd where
  /-- one attempt satisfied `connectSuccess`; loop returned -/
  | success
  /-- all attempts ran and failed; the "gave up" message is printed -/
  | exhausted
  /-- Standard path only: `subprocess.TimeoutExpired` escaped the `for`
  loop into `_connect_device`'s outer `except Exception` -/
  | aborted
deriving Repr, DecidableEq

/-- The `for attempt in range(1, max_retries + 1)` loop of
`AdbConnectListener._connect_device`, by remaining attempts.  `runs k` is the
outcome of the next external invocation; `arg` is `"<ip>:<port>"`.  A raised
`TimeoutExpired` is NOT caught inside this loop: it aborts it (the outer
`except Exception` of `_connect_device` catches it).  On a failed attempt
with attempts remaining, `time.sleep(2)`. -/
def connectRetryLoop (runs : Nat → RunOutcome) (k : Nat) (arg : String) :
    Nat → List Ev × LoopEnd
  | 0 => ([], .exhausted)
  | n + 1 =>
    match runs k with
    | .timeout => ([.invokeConnect arg 5], .aborted)
    | .ok r =>
      if connectSuccess r then ([.invokeConnect arg 5], .success)
      else if n == 0 then ([.invokeConnect arg 5], .exhausted)
      else
        let rest := connectRetryLoop runs (k + 1) arg n
        ([.invokeConnect arg 5, .sleep 2] ++ rest.1, rest.2)

/-- Embeds `AdbConnectListener._connect_device(info)`.  Resolves addresses (abort
silently when none), records `last_seen_service` unconditionally, returns
early when the `"ip:port"` key is already in `connected_devices`, otherwise
runs the retry loop (`max_retries = 3`); on success adds the key to
`connected_devices` and invokes the listener's `on_connected` callback with
the key.  Returns the updated listener state and the trace. -/
def connect_device (runs : Nat → RunOutcome) (k : Nat) (L : ConnListener)
    (info : ServiceInfo) : ConnListener × List Ev :=
  match resolveAddresses info with
  | [] => (L, [])
  | ip :: _ =>
    let L1 := { L with last_seen_service := some (ip, info.port) }
    let key := ip ++ ":" ++ toString info.port
    if key ∈ L1.connected_devices then (L1, [])
    else
      let res := connectRetryLoop runs k key 3
      match res.2 with
      | .success =>
        ({ L1 with connected_devices := key :: L1.connected_devices },
          res.1 ++ [.onConnected key])
      | _ => (L1, res.1)

/-- The retry loop of `AdbService.try_connect_last_known`, by remaining
attempts.  Unlike the standard path, the `try`/`except` sits INSIDE the
loop: a `TimeoutExpired` (or any exception) is caught and treated as a
failed attempt.  On a failed attempt with attempts remaining,
`time.sleep(1.0)`. -/
def tryConnectLoop (runs : Nat → RunOutcome) (k : Nat) (arg : String) :
    Nat → List Ev × LoopEnd
  | 0 => ([], .exhausted)
  | n + 1 =>
    let failStep : List Ev × LoopEnd :=
      if n == 0 then ([.invokeConnect arg 5], .exhausted)
      else
        let rest := tryConnectLoop runs (k + 1) arg n
        ([.invokeConnect arg 5, .sleep 1] ++ rest.1, rest.2)
    match runs k with
    | .timeout => failStep
    | .ok r =>
      if connectSuccess r then ([.invokeConnect arg 5], .success)
      else failStep

/-- Success test of `AdbPairingListener._pair_device`:
`process.returncode == 0 and "Successfully paired" in process.stdout`. -/
def pairSuccess (r : ProcResult) : Bool :=
  r.returncode == 0 && strContains r.stdout "Successfully paired"

/-- Embeds `AdbPairingListener._pair_device(info)` with pairing code `code` and the
stored `on_paired` callback modelled as `onPairedCb : Option (String →
List Ev)` (its trace contribution when invoked with the resolved address).
Resolves addresses (abort when none), performs exactly ONE external pairing
invocation `adb pair <ip>:<port> <code>` with a 30s timeout, and on success
(`pairSuccess`) invokes `on_paired` (when set) with the resolved address.
A `TimeoutExpired` or failure leads to a log only — no retry. -/
def pair_device (code : String) (pairRun : RunOutcome)
    (onPairedCb : Option (String → List Ev)) (info : ServiceInfo) : List Ev :=
  match resolveAddresses info with
  | [] => []
  | ip :: _ =>
    let arg := ip ++ ":" ++ toString info.port ++ " " ++ code
    match pairRun with
    | .timeout => [.invokePair arg 30]
    | .ok r =>
      if pairSuccess r then
        [.invokePair arg 30] ++
          (match onPairedCb with
           | some cb => [.onPaired ip] ++ cb ip
           | none => [])
      else [.invokePair arg 30]

/-- Decimal digit characters of a natural number, most significant first:
the char list of Python's `str(m)` for a nonnegative `int`. -/
def decimalChars (m : Nat) : List Char :=
  ((Nat.digits 10 m).reverse).map fun d => Char.ofNat (48 + d)

/-- Python's `str(m)` for a nonnegative `int`: its decimal representation. -/
def decimalStr (m : Nat) : String :=
  String.mk (decimalChars m)

/-- State of an `AdbService` instance.  Browsers and the `Zeroconf`
connection are identified by `Nat` ids supplied at creation time.
`pairing_listener_code` is the `pairing_code` captured by the currently
installed `AdbPairingListener` (set at `start`); `connect_listener` is the
currently installed `AdbConnectListener` state (`hasattr` is modelled by
`Option`).  `on_paired_set` / `on_connected_set` model whether the outward
hooks have been assigned (the UI layer sets them). -/
structure AdbService where
  zeroconf : Option Nat
  pairing_browser : Option Nat
  connect_browser : Option Nat
  service_name : String
  pairing_code : String
  running : Bool
  pairing_listener_code : Option String
  connect_listener : Option ConnListener
  on_paired_set : Bool
  on_connected_set : Bool
deriving Repr, DecidableEq

/-- Embeds `AdbService.__init__`: no browsers, no connection, empty credentials,
not running, no listeners installed.  (`on_connected` is in fact never
assigned in `__init__`; both hooks are modelled as unset.) -/
def AdbService.init : AdbService :=
  { zeroconf := none, pairing_browser := none, connect_browser := none
    service_name := "", pairing_code := "", running := false
    pairing_listener_code := none, connect_listener := none
    on_paired_set := false, on_connected_set := false }

/-- Embeds `AdbService.generate_credentials()`.  `n` is the value drawn by
`secrets.randbelow(900000)` (so `n < 900000` for a real draw):
`service_name = "adbee"`, `pairing_code = str(n + 100000)`.  Returns the
updated state and the `(service_name, pairing_code)` pair.  No other field
is touched: in particular it neither stops nor starts discovery. -/
def generate_credentials (s : AdbService) (n : Nat) :
    AdbService × String × String :=
  let name := "adbee"
  let code := decimalStr (n + 100000)
  ({ s with service_name := name, pairing_code := code }, name, code)

/-- Orchestrator-level trace events (`start` / `stop`).  The `Bool` on
`cancelBrowser` / `closeZeroconf` records whether the underlying call raised
an exception — which `stop` swallows (`except Exception: pass`) with no
effect on the resulting state. -/
inductive SvcEv where
  | warnNoZeroconf
  | warnNoAdb
  | cancelBrowser (id : Nat) (raised : Bool)
  | closeZeroconf (id : Nat) (raised : Bool)
  | newZeroconf (id : Nat)
  | newBrowser (id : Nat) (serviceType : String)
  | errStartFailed
deriving Repr, DecidableEq

/-- The `AdbService.PAIRING_SERVICE_TYPE` constant. -/
def PAIRING_SERVICE_TYPE : String := "_adb-tls-pairing._tcp.local."

/-- The `AdbService.CONNECT_SERVICE_TYPE` constant. -/
def CONNECT_SERVICE_TYPE : String := "_adb-tls-connect._tcp.local."

/-- Embeds `AdbService.stop()`.  For each of the two browsers present, attempt
`browser.cancel()` (exceptions swallowed: `pcRaises` / `ccRaises` say
whether the call raised), then clear both browser fields; if a `Zeroconf`
connection is present attempt `close()` (exception swallowed, `clRaises`)
and clear it; finally clear `_running`.  Total — it never raises — and it
touches no other field. -/
def stop (s : AdbService) (pcRaises ccRaises clRaises : Bool) :
    AdbService × List SvcEv :=
  let evs :=
    (match s.pairing_browser with
     | some b => [SvcEv.cancelBrowser b pcRaises]
     | none => []) ++
    (match s.connect_browser with
     | some b => [SvcEv.cancelBrowser b ccRaises]
     | none => []) ++
    (match s.zeroconf with
     | some z => [SvcEv.closeZeroconf z clRaises]
     | none => [])
  ({ s with pairing_browser := none, connect_browser := none,
            zeroconf := none, running := false }, evs)

/-- Embeds `AdbService.start()`.  Environment flags: `hasZeroconf` (the zeroconf
library imported), `hasAdb` (`shutil.which("adb")` found), `zcOk` (the
`Zeroconf()` constructor succeeded).  `zid`, `bp`, `bc` are the identities
of the fresh `Zeroconf` connection and the two fresh `ServiceBrowser`s;
`pcRaises`/`ccRaises`/`clRaises` parameterise the implicit `stop`.  If a
prerequisite is missing it only logs and returns (state unchanged).  If
already `_running`, performs the implicit `stop()` first.  If `Zeroconf()`
raises, the exception is caught and logged (state as left by that point).
Otherwise installs a fresh `AdbPairingListener` capturing the CURRENT
`pairing_code`, a fresh `AdbConnectListener`, registers both browsers and
sets `_running`. -/
def start (s : AdbService) (hasZeroconf hasAdb zcOk : Bool)
    (zid bp bc : Nat) (pcRaises ccRaises clRaises : Bool) :
    AdbService × List SvcEv :=
  if !hasZeroconf then (s, [.warnNoZeroconf])
  else if !hasAdb then (s, [.warnNoAdb])
  else
    let stopped : AdbService × List SvcEv :=
      if s.running then stop s pcRaises ccRaises clRaises else (s, [])
    if !zcOk then (stopped.1, stopped.2 ++ [.errStartFailed])
    else
      ({ stopped.1 with
          zeroconf := some zid,
          pairing_listener_code := some stopped.1.pairing_code,
          pairing_browser := some bp,
          connect_listener := some ConnListener.init,
          connect_browser := some bc,
          running := true },
        stopped.2 ++ [.newZeroconf zid, .newBrowser bp PAIRING_SERVICE_TYPE,
                      .newBrowser bc CONNECT_SERVICE_TYPE])

/-- Embeds `AdbService.try_connect_last_known()`: if a connect listener has been
installed (`hasattr`) and it has a `last_seen_service`, run the
opportunistic retry loop (`max_retries = 3`) on `"<ip>:<port>"`; on success
invoke the service's `on_connected` hook (when set) with the endpoint
string.  Mutates neither the listener's `connected_devices` nor any service
field: the returned state equals the input. -/
def try_connect_last_known (runs : Nat → RunOutcome) (k : Nat)
    (s : AdbService) : AdbService × List Ev :=
  match s.connect_listener with
  | none => (s, [])
  | some L =>
    match L.last_seen_service with
    | none => (s, [])
    | some (ip, port) =>
      let arg := ip ++ ":" ++ toString port
      let res := tryConnectLoop runs k arg 3
      match res.2 with
      | .success =>
        (s, res.1 ++ if s.on_connected_set then [.onConnected arg] else [])
      | _ => (s, res.1)

/-- Embeds `AdbService.start._handle_paired(device_ip)`: forward to the outward
`on_paired` hook (when set), then `try_connect_last_known()`. -/
def handle_paired (runs : Nat → RunOutcome) (k : Nat) (s : AdbService)
    (ip : String) : List Ev :=
  (if s.on_paired_set then [Ev.onPairedHook ip] else []) ++
    (try_connect_last_known runs k s).2

/-- A concrete Running orchestrator state (session ids 0, 1, 2; pairing
code `"111111"`) used by the concrete checks below. -/
def runningState : AdbService :=
  { zeroconf := some 0
    pairing_browser := some 1
    connect_browser := some 2
    service_name := "adbee"
    pairing_code := "111111"
    running := true
    pairing_listener_code := some "111111"
    connect_listener := some ConnListener.init
    on_paired_set := true
    on_connected_set := true }

/-- The inverse reading of a decimal string, used to prove that
`decimalStr` is injective (no two draws produce the same code). -/
def decodeDecimal (s : String) : Nat :=
  Nat.ofDigits 10 ((s.data.map fun c => c.toNat - 48).reverse)

/-! ## Helper lemmas -/

theorem connectRetryLoop_succ (runs : Nat → RunOutcome) (k : Nat) (arg : String) (n : Nat) :
    connectRetryLoop runs k arg (n + 1) =
      match runs k with
      | .timeout => ([.invokeConnect arg 5], .aborted)
      | .ok r =>
        if connectSuccess r then ([.invokeConnect arg 5], .success)
        else if n == 0 then ([.invokeConnect arg 5], .exhausted)
        else ([.invokeConnect arg 5, .sleep 2] ++ (connectRetryLoop runs (k + 1) arg n).1,
              (connectRetryLoop runs (k + 1) arg n).2) := rfl

theorem tryConnectLoop_succ (runs : Nat → RunOutcome) (k : Nat) (arg : String) (n : Nat) :
    tryConnectLoop runs k arg (n + 1) =
      let failStep : List Ev × LoopEnd :=
        if n == 0 then ([.invokeConnect arg 5], .exhausted)
        else ([.invokeConnect arg 5, .sleep 1] ++ (tryConnectLoop runs (k + 1) arg n).1,
              (tryConnectLoop runs (k + 1) arg n).2)
      match runs k with
      | .timeout => failStep
      | .ok r => if connectSuccess r then ([.invokeConnect arg 5], .success) else failStep := rfl

theorem connectSuccess_false_of_nonzero (r : ProcResult) (h : r.returncode ≠ 0) :
    connectSuccess r = false := by
  simp [connectSuccess, h]

theorem connectRetryLoop_all_fail (runs : Nat → RunOutcome) (k : Nat) (arg : String)
    (h : ∀ j, ∀ r, runs j = .ok r → connectSuccess r = false)
    (ht : ∀ j, runs j ≠ .timeout) :
    connectRetryLoop runs k arg 3 =
      ([.invokeConnect arg 5, .sleep 2, .invokeConnect arg 5, .sleep 2, .invokeConnect arg 5],
        .exhausted) := by
  have e3 : connectRetryLoop runs k arg 3 = connectRetryLoop runs k arg (2 + 1) := rfl
  have e2 : connectRetryLoop runs (k+1) arg 2 = connectRetryLoop runs (k+1) arg (1 + 1) := rfl
  have e1 : connectRetryLoop runs (k+1+1) arg 1 = connectRetryLoop runs (k+1+1) arg (0 + 1) := rfl
  rw [e3, connectRetryLoop_succ]
  rcases h0 : runs k with r0 | _
  · simp only [h k r0 h0, e2, connectRetryLoop_succ]
    rcases h1 : runs (k+1) with r1 | _
    · simp only [h (k+1) r1 h1, e1, connectRetryLoop_succ]
      rcases h2 : runs (k+1+1) with r2 | _
      · simp [h (k+1+1) r2 h2]
      · exact absurd h2 (ht _)
    · exact absurd h1 (ht _)
  · exact absurd h0 (ht _)

theorem tryConnectLoop_all_fail (runs : Nat → RunOutcome) (k : Nat) (arg : String)
    (h : ∀ j, ∀ r, runs j = .ok r → connectSuccess r = false) :
    tryConnectLoop runs k arg 3 =
      ([.invokeConnect arg 5, .sleep 1, .invokeConnect arg 5, .sleep 1, .invokeConnect arg 5],
        .exhausted) := by
  have base : ∀ k2, tryConnectLoop runs k2 arg 1 = ([.invokeConnect arg 5], .exhausted) := by
    intro k2
    have e : tryConnectLoop runs k2 arg 1 = tryConnectLoop runs k2 arg (0 + 1) := rfl
    rw [e, tryConnectLoop_succ]
    rcases h2 : runs k2 with r2 | _
    · simp [h k2 r2 h2]
    · simp
  have step2 : ∀ k2, tryConnectLoop runs k2 arg 2 =
      ([.invokeConnect arg 5, .sleep 1, .invokeConnect arg 5], .exhausted) := by
    intro k2
    have e : tryConnectLoop runs k2 arg 2 = tryConnectLoop runs k2 arg (1 + 1) := rfl
    rw [e, tryConnectLoop_succ]
    rcases h2 : runs k2 with r2 | _
    · simp [h k2 r2 h2, base (k2 + 1)]
    · simp [base (k2 + 1)]
  have e3 : tryConnectLoop runs k arg 3 = tryConnectLoop runs k arg (2 + 1) := rfl
  rw [e3, tryConnectLoop_succ]
  rcases h0 : runs k with r0 | _
  · simp [h k r0 h0, step2 (k + 1)]
  · simp [step2 (k + 1)]

theorem invokeConnectCount_append (a b : List Ev) :
    invokeConnectCount (a ++ b) = invokeConnectCount a + invokeConnectCount b := by
  simp [invokeConnectCount, List.filter_append]

theorem connectRetryLoop_events (runs : Nat → RunOutcome) (arg : String) :
    ∀ n k, ∀ e ∈ (connectRetryLoop runs k arg n).1,
      e = Ev.invokeConnect arg 5 ∨ e = Ev.sleep 2 := by
  intro n
  induction n with
  | zero => intro k e he; simp [connectRetryLoop] at he
  | succ n ih =>
    intro k e he
    rw [connectRetryLoop_succ] at he
    rcases h0 : runs k with r | _ <;> rw [h0] at he
    · by_cases hs : connectSuccess r
      · simp [hs] at he; simp [he]
      · by_cases hn : n == 0
        · simp [hs, hn] at he; simp [he]
        · simp only [hs, hn, Bool.false_eq_true, if_false, List.mem_append,
            List.mem_cons, List.mem_singleton, List.not_mem_nil, or_false] at he
          rcases he with (he | he) | he
          · exact Or.inl he
          · exact Or.inr he
          · exact ih (k + 1) e he
    · simp at he; simp [he]

theorem connectRetryLoop_count_le (runs : Nat → RunOutcome) (arg : String) :
    ∀ n k, invokeConnectCount (connectRetryLoop runs k arg n).1 ≤ n := by
  intro n
  induction n with
  | zero => intro k; simp [connectRetryLoop, invokeConnectCount]
  | succ n ih =>
    intro k
    rw [connectRetryLoop_succ]
    rcases runs k with r | _
    · by_cases hs : connectSuccess r
      · simp [hs, invokeConnectCount]
      · by_cases hn : n == 0
        · simp [hs, hn, invokeConnectCount]
        · simp only [hs, hn, Bool.false_eq_true, if_false]
          have := ih (k + 1)
          rw [show ([Ev.invokeConnect arg 5, Ev.sleep 2] : List Ev) ++
                (connectRetryLoop runs (k+1) arg n).1 =
              [Ev.invokeConnect arg 5, Ev.sleep 2] ++
                (connectRetryLoop runs (k+1) arg n).1 from rfl,
            invokeConnectCount_append]
          have h2 : invokeConnectCount [Ev.invokeConnect arg 5, Ev.sleep 2] = 1 := rfl
          omega
    · simp [invokeConnectCount]

theorem connectRetryLoop_count_pos (runs : Nat → RunOutcome) (k : Nat) (arg : String)
    (n : Nat) : 1 ≤ invokeConnectCount (connectRetryLoop runs k arg (n + 1)).1 := by
  rw [connectRetryLoop_succ]
  rcases runs k with r | _
  · by_cases hs : connectSuccess r
    · simp [hs, invokeConnectCount]
    · by_cases hn : n == 0
      · simp [hs, hn, invokeConnectCount]
      · simp only [hs, hn, Bool.false_eq_true, if_false, invokeConnectCount_append]
        have h2 : invokeConnectCount [Ev.invokeConnect arg 5, Ev.sleep 2] = 1 := rfl
        omega
  · simp [invokeConnectCount]

theorem connect_device_noaddr (runs : Nat → RunOutcome) (k : Nat) (L : ConnListener)
    (info : ServiceInfo) (h : resolveAddresses info = []) :
    connect_device runs k L info = (L, []) := by
  unfold connect_device
  rw [h]

theorem connect_device_run (runs : Nat → RunOutcome) (k : Nat) (L : ConnListener)
    (info : ServiceInfo) (ip : String) (rest : List String)
    (hres : resolveAddresses info = ip :: rest)
    (hnot : (ip ++ ":" ++ toString info.port) ∉ L.connected_devices) :
    connect_device runs k L info =
      (let L1 : ConnListener := { L with last_seen_service := some (ip, info.port) }
       let key := ip ++ ":" ++ toString info.port
       let res := connectRetryLoop runs k key 3
       match res.2 with
       | .success =>
         ({ L1 with connected_devices := key :: L1.connected_devices },
           res.1 ++ [.onConnected key])
       | _ => (L1, res.1)) := by
  unfold connect_device
  rw [hres]
  simp [hnot]

theorem connect_device_dedup (runs : Nat → RunOutcome) (k : Nat) (L : ConnListener)
    (info : ServiceInfo) (ip : String) (rest : List String)
    (hres : resolveAddresses info = ip :: rest)
    (hin : (ip ++ ":" ++ toString info.port) ∈ L.connected_devices) :
    connect_device runs k L info =
      ({ L with last_seen_service := some (ip, info.port) }, []) := by
  unfold connect_device
  rw [hres]
  simp [hin]

theorem connectRetryLoop_first_success (runs : Nat → RunOutcome) (k : Nat) (arg : String)
    (n : Nat) (r : ProcResult) (hr : runs k = .ok r) (hs : connectSuccess r = true) :
    connectRetryLoop runs k arg (n + 1) = ([.invokeConnect arg 5], .success) := by
  rw [connectRetryLoop_succ, hr]
  simp [hs]

theorem connectRetryLoop_first_timeout (runs : Nat → RunOutcome) (k : Nat) (arg : String)
    (n : Nat) (hr : runs k = .timeout) :
    connectRetryLoop runs k arg (n + 1) = ([.invokeConnect arg 5], .aborted) := by
  rw [connectRetryLoop_succ, hr]

theorem tryConnectLoop_first_success (runs : Nat → RunOutcome) (k : Nat) (arg : String)
    (n : Nat) (r : ProcResult) (hr : runs k = .ok r) (hs : connectSuccess r = true) :
    tryConnectLoop runs k arg (n + 1) = ([.invokeConnect arg 5], .success) := by
  rw [tryConnectLoop_succ, hr]
  simp [hs]

theorem tryConnectLoop_events (runs : Nat → RunOutcome) (arg : String) :
    ∀ n k, ∀ e ∈ (tryConnectLoop runs k arg n).1,
      e = Ev.invokeConnect arg 5 ∨ e = Ev.sleep 1 := by
  intro n
  induction n with
  | zero => intro k e he; simp [tryConnectLoop] at he
  | succ n ih =>
    intro n2 e he
    rw [tryConnectLoop_succ] at he
    have hfail : ∀ he2 : e ∈ (if n == 0 then
          ([Ev.invokeConnect arg 5], LoopEnd.exhausted)
        else ([Ev.invokeConnect arg 5, Ev.sleep 1] ++ (tryConnectLoop runs (n2 + 1) arg n).1,
              (tryConnectLoop runs (n2 + 1) arg n).2)).1,
        e = Ev.invokeConnect arg 5 ∨ e = Ev.sleep 1 := by
      intro he2
      by_cases hn : n == 0
      · simp [hn] at he2; simp [he2]
      · simp only [hn, Bool.false_eq_true, if_false, List.mem_append, List.mem_cons,
          List.mem_singleton, List.not_mem_nil, or_false] at he2
        rcases he2 with (h | h) | h
        · exact Or.inl h
        · exact Or.inr h
        · exact ih (n2 + 1) e h
    rcases h0 : runs n2 with r | _ <;> rw [h0] at he
    · by_cases hs : connectSuccess r
      · simp [hs] at he; simp [he]
      · simp only [hs, Bool.false_eq_true, if_false] at he
        exact hfail he
    · exact hfail he

theorem try_connect_state (runs : Nat → RunOutcome) (k : Nat) (s : AdbService) :
    (try_connect_last_known runs k s).1 = s := by
  rcases hc : s.connect_listener with _ | L
  · simp [try_connect_last_known, hc]
  · rcases hl : L.last_seen_service with _ | ⟨ip, port⟩
    · simp [try_connect_last_known, hc, hl]
    · rcases hend : (tryConnectLoop runs k (ip ++ ":" ++ toString port) 3).2 with _ | _ | _ <;>
        simp [try_connect_last_known, hc, hl, hend]

theorem try_connect_no_listener (runs : Nat → RunOutcome) (k : Nat) (s : AdbService)
    (h : s.connect_listener = none) : try_connect_last_known runs k s = (s, []) := by
  simp [try_connect_last_known, h]

theorem try_connect_no_endpoint (runs : Nat → RunOutcome) (k : Nat) (s : AdbService)
    (L : ConnListener) (hL : s.connect_listener = some L)
    (h : L.last_seen_service = none) : try_connect_last_known runs k s = (s, []) := by
  simp [try_connect_last_known, hL, h]

theorem try_connect_run (runs : Nat → RunOutcome) (k : Nat) (s : AdbService)
    (L : ConnListener) (ip : String) (port : Nat) (hL : s.connect_listener = some L)
    (h : L.last_seen_service = some (ip, port)) :
    try_connect_last_known runs k s =
      (s, (tryConnectLoop runs k (ip ++ ":" ++ toString port) 3).1 ++
        (if (tryConnectLoop runs k (ip ++ ":" ++ toString port) 3).2 = LoopEnd.success ∧
            s.on_connected_set = true
         then [.onConnected (ip ++ ":" ++ toString port)] else [])) := by
  rcases hend : (tryConnectLoop runs k (ip ++ ":" ++ toString port) 3).2 with _ | _ | _
  · rcases hset : s.on_connected_set <;>
      simp [try_connect_last_known, hL, h, hend, hset]
  · simp [try_connect_last_known, hL, h, hend]
  · simp [try_connect_last_known, hL, h, hend]

/-! ## Claim theorems -/

/-- Claim C1: for every connect-type service-added event whose endpoint is
not yet in the connected set, the Connect Handler makes at most 3 sequential
connection attempts; every external invocation targets the resolved
endpoint with a 5-second timeout; an attempt succeeds exactly when the
process exits zero and its combined stdout+stderr, lowercased, contains
"connected" or "already connected"; if the external command always fails
with a nonzero exit, exactly 3 invocations occur with a 2-second wait
between attempts in the standard path (none after the last), and 1-second
waits in the opportunistic path. -/
theorem C1_connect_retry_bound
    (runs : Nat → RunOutcome) (k : Nat) (L : ConnListener) (info : ServiceInfo)
    (ip : String) (rest : List String) (key : String)
    (hres : resolveAddresses info = ip :: rest)
    (hkey : key = ip ++ ":" ++ toString info.port)
    (hnot : key ∉ L.connected_devices) :
    invokeConnectCount (connect_device runs k L info).2 ≤ 3 ∧
    (∀ a t, Ev.invokeConnect a t ∈ (connect_device runs k L info).2 → a = key ∧ t = 5) ∧
    (∀ n r, runs k = .ok r →
      (connectRetryLoop runs k key (n + 1) = ([.invokeConnect key 5], .success) ↔
        (r.returncode = 0 ∧
          (strContains (strLower (r.stdout ++ r.stderr)) "connected" = true ∨
           strContains (strLower (r.stdout ++ r.stderr)) "already connected" = true)))) ∧
    ((∀ j, ∃ r, runs j = .ok r ∧ r.returncode ≠ 0) →
      (connect_device runs k L info).2 =
        [.invokeConnect key 5, .sleep 2, .invokeConnect key 5, .sleep 2,
         .invokeConnect key 5]) ∧
    ((∀ j, ∃ r, runs j = .ok r ∧ r.returncode ≠ 0) →
      tryConnectLoop runs k key 3 =
        ([.invokeConnect key 5, .sleep 1, .invokeConnect key 5, .sleep 1,
          .invokeConnect key 5], .exhausted)) := by
  subst hkey
  have hrun := connect_device_run runs k L info ip rest hres hnot
  set key := ip ++ ":" ++ toString info.port with hk
  have hfail_ok : (∀ j, ∃ r, runs j = .ok r ∧ r.returncode ≠ 0) →
      (∀ j, ∀ r, runs j = .ok r → connectSuccess r = false) ∧
      (∀ j, runs j ≠ .timeout) := by
    intro hf
    constructor
    · intro j r hj
      rcases hf j with ⟨r2, hj2, hz⟩
      rw [hj] at hj2
      cases hj2
      exact connectSuccess_false_of_nonzero r hz
    · intro j hj
      rcases hf j with ⟨r2, hj2, _⟩
      rw [hj] at hj2
      exact RunOutcome.noConfusion hj2
  refine ⟨?_, ?_, ?_, ?_, ?_⟩
  · rw [hrun]
    rcases hend : (connectRetryLoop runs k key 3).2 with _ | _ | _ <;>
      simp only [hend, invokeConnectCount_append] <;>
      have := connectRetryLoop_count_le runs key 3 k
    · have h1 : invokeConnectCount [Ev.onConnected key] = 0 := rfl
      omega
    · omega
    · omega
  · intro a t ha
    rw [hrun] at ha
    rcases hend : (connectRetryLoop runs k key 3).2 with _ | _ | _ <;>
      simp only [hend, List.mem_append] at ha
    · rcases ha with ha | ha
      · rcases connectRetryLoop_events runs key 3 k _ ha with h | h <;> cases h
        exact ⟨rfl, rfl⟩
      · simp at ha
    · rcases connectRetryLoop_events runs key 3 k _ ha with h | h <;> cases h
      exact ⟨rfl, rfl⟩
    · rcases connectRetryLoop_events runs key 3 k _ ha with h | h <;> cases h
      exact ⟨rfl, rfl⟩
  · intro n r hr
    have hchar : connectSuccess r = true ↔
        (r.returncode = 0 ∧
          (strContains (strLower (r.stdout ++ r.stderr)) "connected" = true ∨
           strContains (strLower (r.stdout ++ r.stderr)) "already connected" = true)) := by
      simp [connectSuccess]
    rw [connectRetryLoop_succ, hr]
    by_cases hs : connectSuccess r
    · simp only [hs, if_true]
      exact ⟨fun _ => hchar.mp hs, fun _ => by trivial⟩
    · rw [← hchar]
      simp only [hs, Bool.false_eq_true, if_false]
      constructor
      · by_cases hn : n == 0
        · simp [hn]
        · simp only [hn, Bool.false_eq_true, if_false]
          intro hcontra
          have := congrArg (fun p => p.1.length) hcontra
          simp at this
      · intro hcontra
        exact absurd hcontra (by simp)
  · intro hf
    rcases hfail_ok hf with ⟨h1, h2⟩
    simp only [hrun]
    rw [connectRetryLoop_all_fail runs k key h1 h2]
  · intro hf
    rcases hfail_ok hf with ⟨h1, _⟩
    rw [tryConnectLoop_all_fail runs k key h1]

/-- Witness for C1 at a concrete input: endpoint `192.168.1.50:5556`, empty
connected set, external tool always exiting 1. -/
theorem C1_connect_retry_bound_check :
    resolveAddresses ⟨["192.168.1.50"], [], 5556⟩ = "192.168.1.50" :: [] ∧
    ("192.168.1.50:5556" : String) ∉ ConnListener.init.connected_devices ∧
    (connect_device (fun _ => .ok ⟨1, "failed to connect", ""⟩) 0 ConnListener.init
        ⟨["192.168.1.50"], [], 5556⟩).2 =
      [.invokeConnect "192.168.1.50:5556" 5, .sleep 2,
       .invokeConnect "192.168.1.50:5556" 5, .sleep 2,
       .invokeConnect "192.168.1.50:5556" 5] := by
  refine ⟨rfl, by simp [ConnListener.init], ?_⟩
  have h := C1_connect_retry_bound (fun _ => .ok ⟨1, "failed to connect", ""⟩) 0
      ConnListener.init ⟨["192.168.1.50"], [], 5556⟩ "192.168.1.50" []
      "192.168.1.50:5556" rfl (by decide) (by simp [ConnListener.init])
  exact h.2.2.2.1 fun j => ⟨⟨1, "failed to connect", ""⟩, rfl, by decide⟩

/-- Claim C2 counterexample: a successful opportunistic attempt does NOT
add the endpoint to `ConnectedEndpointSet`.  With a known last-seen endpoint
`192.168.1.50:5556` and an external tool that succeeds immediately, the
success callback is invoked with the endpoint string, yet the listener state
is unchanged and the endpoint is not in `connected_devices`. -/
theorem C2_opportunistic_no_set_add_cex :
    (try_connect_last_known (fun _ => .ok ⟨0, "connected to 192.168.1.50:5556", ""⟩) 0
        { AdbService.init with
          connect_listener := some ⟨[], some ("192.168.1.50", 5556)⟩,
          on_connected_set := true }).2 =
      [.invokeConnect "192.168.1.50:5556" 5, .onConnected "192.168.1.50:5556"] ∧
    (try_connect_last_known (fun _ => .ok ⟨0, "connected to 192.168.1.50:5556", ""⟩) 0
        { AdbService.init with
          connect_listener := some ⟨[], some ("192.168.1.50", 5556)⟩,
          on_connected_set := true }).1.connect_listener =
      some ⟨[], some ("192.168.1.50", 5556)⟩ := by
  constructor <;> rfl

/-- Claim C2 (amended): the opportunistic connection path uses the stored
`last_seen_service` directly, is a no-op when no listener or endpoint is
known, uses a 1-second inter-attempt delay, and on a successful attempt
invokes the success callback with the `"ip:port"` endpoint string and stops
retrying — but, unlike the standard path, it does NOT add the endpoint to
`ConnectedEndpointSet`: the service state (including the listener's
`connected_devices`) is returned unchanged. -/
theorem C2_opportunistic_amended (runs : Nat → RunOutcome) (k : Nat) (s : AdbService) :
    (s.connect_listener = none → try_connect_last_known runs k s = (s, [])) ∧
    (∀ L, s.connect_listener = some L → L.last_seen_service = none →
      try_connect_last_known runs k s = (s, [])) ∧
    (try_connect_last_known runs k s).1 = s ∧
    (∀ L ip port, s.connect_listener = some L →
      L.last_seen_service = some (ip, port) → s.on_connected_set = true →
      (∀ r, runs k = .ok r → connectSuccess r = true →
        (try_connect_last_known runs k s).2 =
          [.invokeConnect (ip ++ ":" ++ toString port) 5,
           .onConnected (ip ++ ":" ++ toString port)]) ∧
      ((∀ j, ∀ r, runs j = .ok r → connectSuccess r = false) →
        (try_connect_last_known runs k s).2 =
          [.invokeConnect (ip ++ ":" ++ toString port) 5, .sleep 1,
           .invokeConnect (ip ++ ":" ++ toString port) 5, .sleep 1,
           .invokeConnect (ip ++ ":" ++ toString port) 5])) := by
  refine ⟨try_connect_no_listener runs k s, ?_, try_connect_state runs k s, ?_⟩
  · intro L hL h2
    exact try_connect_no_endpoint runs k s L hL h2
  · intro L ip port hL hend hset
    constructor
    · intro r hr hs
      rw [try_connect_run runs k s L ip port hL hend,
        tryConnectLoop_first_success runs k (ip ++ ":" ++ toString port) 2 r hr hs]
      simp [hset]
    · intro hfail
      rw [try_connect_run runs k s L ip port hL hend,
        tryConnectLoop_all_fail runs k (ip ++ ":" ++ toString port) hfail]
      simp

/-- Witness for C2 (amended) at a concrete input: listener with last-seen
endpoint `10.0.0.7:4242`, hook set, tool succeeding on the first attempt. -/
theorem C2_opportunistic_amended_check :
    ({ AdbService.init with
        connect_listener := some ⟨[], some ("10.0.0.7", 4242)⟩,
        on_connected_set := true } : AdbService).connect_listener =
      some ⟨[], some ("10.0.0.7", 4242)⟩ ∧
    (try_connect_last_known (fun _ => .ok ⟨0, "already connected to 10.0.0.7:4242", ""⟩) 0
        { AdbService.init with
          connect_listener := some ⟨[], some ("10.0.0.7", 4242)⟩,
          on_connected_set := true }).2 =
      [.invokeConnect ("10.0.0.7" ++ ":" ++ toString (4242 : Nat)) 5,
       .onConnected ("10.0.0.7" ++ ":" ++ toString (4242 : Nat))] := by
  refine ⟨rfl, ?_⟩
  have h := C2_opportunistic_amended
      (fun _ => .ok ⟨0, "already connected to 10.0.0.7:4242", ""⟩) 0
      { AdbService.init with
        connect_listener := some ⟨[], some ("10.0.0.7", 4242)⟩,
        on_connected_set := true }
  exact (h.2.2.2 ⟨[], some ("10.0.0.7", 4242)⟩ "10.0.0.7" 4242 rfl rfl rfl).1
    ⟨0, "already connected to 10.0.0.7:4242", ""⟩ rfl (by decide)

/-- Claim C3 counterexample: in the standard connect path a timed-out
attempt does NOT count as a failed try with the remaining tries still
occurring — the `TimeoutExpired` escapes the retry loop into the outer
exception handler, so with an external tool that always times out only ONE
invocation occurs (not 3). -/
theorem C3_timeout_retry_cex :
    (connect_device (fun _ => .timeout) 0 ConnListener.init
        ⟨["192.168.1.50"], [], 5556⟩).2 = [.invokeConnect "192.168.1.50:5556" 5] ∧
    invokeConnectCount (connect_device (fun _ => .timeout) 0 ConnListener.init
        ⟨["192.168.1.50"], [], 5556⟩).2 = 1 ∧ (1 : Nat) ≠ 3 := by
  refine ⟨rfl, rfl, by decide⟩

/-- Claim C3 (amended): a timeout of an external connect invocation is
handled per path.  In the OPPORTUNISTIC path a timed-out attempt counts as
a failed try: the remaining tries still occur (with the 1-second wait), and
a later attempt can still succeed.  In the STANDARD path a timeout aborts
the event: the exception escapes the retry loop to the outer handler and no
further tries occur (exactly one invocation happened). -/
theorem C3_timeout_amended (runs : Nat → RunOutcome) (k : Nat) (L : ConnListener)
    (info : ServiceInfo) (ip : String) (rest : List String) (key : String)
    (hres : resolveAddresses info = ip :: rest)
    (hkey : key = ip ++ ":" ++ toString info.port)
    (hnot : key ∉ L.connected_devices) :
    (runs k = .timeout →
      connect_device runs k L info =
        ({ L with last_seen_service := some (ip, info.port) }, [.invokeConnect key 5])) ∧
    (runs k = .timeout → ∀ r, runs (k + 1) = .ok r → connectSuccess r = true →
      tryConnectLoop runs k key 3 =
        ([.invokeConnect key 5, .sleep 1, .invokeConnect key 5], .success)) ∧
    ((∀ j, runs j = .timeout) →
      tryConnectLoop runs k key 3 =
        ([.invokeConnect key 5, .sleep 1, .invokeConnect key 5, .sleep 1,
          .invokeConnect key 5], .exhausted)) := by
  subst hkey
  refine ⟨?_, ?_, ?_⟩
  · intro ht
    rw [connect_device_run runs k L info ip rest hres hnot]
    simp only [connectRetryLoop_first_timeout runs k _ 2 ht]
  · intro ht r hr hs
    have e3 : tryConnectLoop runs k (ip ++ ":" ++ toString info.port) 3 =
        tryConnectLoop runs k (ip ++ ":" ++ toString info.port) (2 + 1) := rfl
    rw [e3, tryConnectLoop_succ, ht]
    rw [tryConnectLoop_first_success runs (k + 1) (ip ++ ":" ++ toString info.port) 1 r hr hs]
    simp
  · intro ht
    apply tryConnectLoop_all_fail
    intro j r hj
    rw [ht j] at hj
    exact RunOutcome.noConfusion hj

/-- Witness for C3 (amended) at a concrete input: first invocation times
out, the second succeeds; opportunistic loop succeeds on try 2, standard
handler gives up after the single timed-out invocation. -/
theorem C3_timeout_amended_check :
    resolveAddresses ⟨["192.168.1.50"], [], 5556⟩ = "192.168.1.50" :: [] ∧
    (fun j => if j == 0 then RunOutcome.timeout
              else .ok ⟨0, "connected to 192.168.1.50:5556", ""⟩) 0 = .timeout ∧
    connect_device (fun j => if j == 0 then RunOutcome.timeout
        else .ok ⟨0, "connected to 192.168.1.50:5556", ""⟩) 0 ConnListener.init
        ⟨["192.168.1.50"], [], 5556⟩ =
      (⟨[], some ("192.168.1.50", 5556)⟩,
        [.invokeConnect ("192.168.1.50" ++ ":" ++ toString ((⟨["192.168.1.50"], [], 5556⟩ :
          ServiceInfo)).port) 5]) ∧
    tryConnectLoop (fun j => if j == 0 then RunOutcome.timeout
        else .ok ⟨0, "connected to 192.168.1.50:5556", ""⟩) 0
        ("192.168.1.50" ++ ":" ++ toString ((⟨["192.168.1.50"], [], 5556⟩ :
          ServiceInfo)).port) 3 =
      ([.invokeConnect ("192.168.1.50" ++ ":" ++ toString ((⟨["192.168.1.50"], [], 5556⟩ :
          ServiceInfo)).port) 5, .sleep 1,
        .invokeConnect ("192.168.1.50" ++ ":" ++ toString ((⟨["192.168.1.50"], [], 5556⟩ :
          ServiceInfo)).port) 5], .success) := by
  have h := C3_timeout_amended
      (fun j => if j == 0 then RunOutcome.timeout
        else .ok ⟨0, "connected to 192.168.1.50:5556", ""⟩) 0 ConnListener.init
      ⟨["192.168.1.50"], [], 5556⟩ "192.168.1.50" []
      ("192.168.1.50" ++ ":" ++ toString ((⟨["192.168.1.50"], [], 5556⟩ :
        ServiceInfo)).port) rfl rfl (by simp [ConnListener.init])
  exact ⟨rfl, rfl, h.1 rfl,
    h.2.1 rfl ⟨0, "connected to 192.168.1.50:5556", ""⟩ rfl (by decide)⟩

/-- Claim C4 counterexample: "the external connect command is invoked at
most once across both events" is false in general — with an external tool
that always exits nonzero, two add-events for the same resolved endpoint
lead to 3 invocations each, 6 in total. -/
theorem C4_dedup_at_most_once_cex :
    invokeConnectCount
        (connect_device (fun _ => .ok ⟨1, "failed to connect", ""⟩) 0 ConnListener.init
          ⟨["192.168.1.50"], [], 5556⟩).2 +
      invokeConnectCount
        (connect_device (fun _ => .ok ⟨1, "failed to connect", ""⟩) 3
          (connect_device (fun _ => .ok ⟨1, "failed to connect", ""⟩) 0 ConnListener.init
            ⟨["192.168.1.50"], [], 5556⟩).1
          ⟨["192.168.1.50"], [], 5556⟩).2 = 6 ∧ ¬ (6 ≤ 1) := by
  exact ⟨rfl, by decide⟩

/-- Claim C4 (amended): the Connect Handler records `(ip, port)` as
`last_seen_service` unconditionally — also when the attempt is skipped by
deduplication — and returns without invoking any external command when the
`"ip:port"` key is already in `connected_devices`.  Consequently, given two
add-events for the same resolved endpoint, if the FIRST event's first
attempt succeeds, exactly one external invocation occurs across both
events (deduplication silences the second event entirely); without that
success the claim's "at most once" does not hold (each event may invoke up
to 3 times). -/
theorem C4_dedup_amended (runs runs2 : Nat → RunOutcome) (k k2 : Nat)
    (L : ConnListener) (info : ServiceInfo) (ip : String) (rest : List String)
    (key : String) (hres : resolveAddresses info = ip :: rest)
    (hkey : key = ip ++ ":" ++ toString info.port) :
    (connect_device runs k L info).1.last_seen_service = some (ip, info.port) ∧
    (key ∈ L.connected_devices →
      connect_device runs k L info =
        ({ L with last_seen_service := some (ip, info.port) }, [])) ∧
    (key ∉ L.connected_devices → ∀ r, runs k = .ok r → connectSuccess r = true →
      invokeConnectCount (connect_device runs k L info).2 = 1 ∧
      (connect_device runs2 k2 (connect_device runs k L info).1 info).2 = [] ∧
      invokeConnectCount (connect_device runs k L info).2 +
        invokeConnectCount
          (connect_device runs2 k2 (connect_device runs k L info).1 info).2 = 1) := by
  subst hkey
  refine ⟨?_, ?_, ?_⟩
  · by_cases hmem : (ip ++ ":" ++ toString info.port) ∈ L.connected_devices
    · rw [connect_device_dedup runs k L info ip rest hres hmem]
    · rw [connect_device_run runs k L info ip rest hres hmem]
      rcases hend : (connectRetryLoop runs k (ip ++ ":" ++ toString info.port) 3).2 with
        _ | _ | _ <;> simp [hend]
  · intro hmem
    exact connect_device_dedup runs k L info ip rest hres hmem
  · intro hmem r hr hs
    have h1 : connect_device runs k L info =
        ({ connected_devices := (ip ++ ":" ++ toString info.port) :: L.connected_devices,
           last_seen_service := some (ip, info.port) },
         [.invokeConnect (ip ++ ":" ++ toString info.port) 5,
          .onConnected (ip ++ ":" ++ toString info.port)]) := by
      rw [connect_device_run runs k L info ip rest hres hmem]
      simp only [connectRetryLoop_first_success runs k (ip ++ ":" ++ toString info.port)
        2 r hr hs]
      rfl
    have hcount : invokeConnectCount (connect_device runs k L info).2 = 1 := by
      rw [h1]; rfl
    have hmem2 : (ip ++ ":" ++ toString info.port) ∈
        (connect_device runs k L info).1.connected_devices := by
      rw [h1]; exact List.mem_cons_self _ _
    have h2 := connect_device_dedup runs2 k2 (connect_device runs k L info).1 info ip rest
      hres hmem2
    refine ⟨hcount, by rw [h2], ?_⟩
    rw [h2, hcount]
    rfl

/-- Witness for C4 (amended) at a concrete input: tool succeeds on the
first invocation of the first event; the second event performs no
invocation. -/
theorem C4_dedup_amended_check :
    resolveAddresses ⟨["192.168.1.50"], [], 5556⟩ = "192.168.1.50" :: [] ∧
    ("192.168.1.50:5556" : String) ∉ ConnListener.init.connected_devices ∧
    invokeConnectCount
        (connect_device (fun _ => .ok ⟨0, "connected to 192.168.1.50:5556", ""⟩) 0
          ConnListener.init ⟨["192.168.1.50"], [], 5556⟩).2 +
      invokeConnectCount
        (connect_device (fun _ => .ok ⟨0, "connected to 192.168.1.50:5556", ""⟩) 1
          (connect_device (fun _ => .ok ⟨0, "connected to 192.168.1.50:5556", ""⟩) 0
            ConnListener.init ⟨["192.168.1.50"], [], 5556⟩).1
          ⟨["192.168.1.50"], [], 5556⟩).2 = 1 := by
  refine ⟨rfl, by simp [ConnListener.init], ?_⟩
  have h := C4_dedup_amended (fun _ => .ok ⟨0, "connected to 192.168.1.50:5556", ""⟩)
      (fun _ => .ok ⟨0, "connected to 192.168.1.50:5556", ""⟩) 0 1 ConnListener.init
      ⟨["192.168.1.50"], [], 5556⟩ "192.168.1.50" [] "192.168.1.50:5556" rfl rfl
  exact (h.2.2 (by simp [ConnListener.init]) ⟨0, "connected to 192.168.1.50:5556", ""⟩
    rfl (by decide)).2.2

theorem invokePairCount_append (a b : List Ev) :
    invokePairCount (a ++ b) = invokePairCount a + invokePairCount b := by
  simp [invokePairCount, List.filter_append]

theorem tryConnectLoop_no_pair (runs : Nat → RunOutcome) (k : Nat) (arg : String)
    (n : Nat) : invokePairCount (tryConnectLoop runs k arg n).1 = 0 := by
  have h := tryConnectLoop_events runs arg n k
  simp only [invokePairCount, List.length_eq_zero, List.filter_eq_nil_iff]
  intro e he
  rcases h e he with h1 | h1 <;> subst h1 <;> simp

theorem try_connect_no_pair (runs : Nat → RunOutcome) (k : Nat) (s : AdbService) :
    invokePairCount (try_connect_last_known runs k s).2 = 0 := by
  rcases hc : s.connect_listener with _ | L
  · simp [try_connect_no_listener runs k s hc, invokePairCount]
  · rcases hl : L.last_seen_service with _ | ⟨ip, port⟩
    · simp [try_connect_no_endpoint runs k s L hc hl, invokePairCount]
    · rw [try_connect_run runs k s L ip port hc hl, invokePairCount_append,
        tryConnectLoop_no_pair]
      split
      · rfl
      · rfl

theorem handle_paired_no_pair (runs : Nat → RunOutcome) (k : Nat) (s : AdbService)
    (ip : String) : invokePairCount (handle_paired runs k s ip) = 0 := by
  unfold handle_paired
  rw [invokePairCount_append, try_connect_no_pair]
  rcases hp : s.on_paired_set <;> simp [hp, invokePairCount]

/-- Claim C5: for every pairing-type service-added event that resolves to
an address, the Pairing Handler (wired to the orchestrator's
`_handle_paired`) invokes the external pairing command exactly once — no
internal retry — as `<address>:<port> <pairingCode>` with a 30-second
timeout; the result is a failure exactly when the exit code is nonzero or
the marker `"Successfully paired"` is absent from standard output, in which
case (as on timeout) the trace stops at the single invocation; on success
it invokes the callback with the resolved address and then immediately
attempts an opportunistic connection. -/
theorem C5_pairing_single_invocation
    (code : String) (pairRun : RunOutcome) (runs : Nat → RunOutcome) (k : Nat)
    (s : AdbService) (info : ServiceInfo) (ip : String) (rest : List String)
    (arg : String) (hres : resolveAddresses info = ip :: rest)
    (harg : arg = ip ++ ":" ++ toString info.port ++ " " ++ code) :
    invokePairCount (pair_device code pairRun (some (handle_paired runs k s)) info) = 1 ∧
    (pairRun = .timeout →
      pair_device code pairRun (some (handle_paired runs k s)) info =
        [.invokePair arg 30]) ∧
    (∀ r, pairRun = .ok r →
      (r.returncode ≠ 0 ∨ strContains r.stdout "Successfully paired" = false) →
      pair_device code pairRun (some (handle_paired runs k s)) info =
        [.invokePair arg 30]) ∧
    (∀ r, pairRun = .ok r → r.returncode = 0 →
      strContains r.stdout "Successfully paired" = true →
      pair_device code pairRun (some (handle_paired runs k s)) info =
        [.invokePair arg 30, .onPaired ip] ++
          (if s.on_paired_set = true then [.onPairedHook ip] else []) ++
          (try_connect_last_known runs k s).2) := by
  subst harg
  have hunfold : ∀ cb, pair_device code pairRun (some cb) info =
      match pairRun with
      | .timeout => [.invokePair (ip ++ ":" ++ toString info.port ++ " " ++ code) 30]
      | .ok r =>
        if pairSuccess r then
          [.invokePair (ip ++ ":" ++ toString info.port ++ " " ++ code) 30] ++
            ([.onPaired ip] ++ cb ip)
        else [.invokePair (ip ++ ":" ++ toString info.port ++ " " ++ code) 30] := by
    intro cb
    unfold pair_device
    rw [hres]
  refine ⟨?_, ?_, ?_, ?_⟩
  · rw [hunfold]
    rcases pairRun with r | _
    · by_cases hs : pairSuccess r
      · simp only [hs, if_true, invokePairCount_append, handle_paired_no_pair]
        rfl
      · simp only [hs, Bool.false_eq_true, if_false]
        rfl
    · rfl
  · intro ht
    subst ht
    rw [hunfold]
  · intro r hr hfail
    subst hr
    have hs : pairSuccess r = false := by
      rcases hfail with h | h
      · simp [pairSuccess, h]
      · simp [pairSuccess, h]
    rw [hunfold]
    simp [hs]
  · intro r hr hrc hmark
    subst hr
    have hs : pairSuccess r = true := by
      simp [pairSuccess, hrc, hmark]
    rw [hunfold]
    simp only [hs, if_true]
    unfold handle_paired
    simp

/-- Witness for C5 at a concrete input: pairing code `123456`, tool exiting
0 with `"Successfully paired"` on stdout, hooks set and a known last-seen
connect endpoint. -/
theorem C5_pairing_single_invocation_check :
    resolveAddresses ⟨["192.168.1.50"], [], 37512⟩ = "192.168.1.50" :: [] ∧
    invokePairCount
      (pair_device "123456" (.ok ⟨0, "Successfully paired to 192.168.1.50:37512", ""⟩)
        (some (handle_paired (fun _ => .ok ⟨0, "connected to 192.168.1.50:5556", ""⟩) 0
          { AdbService.init with
            connect_listener := some ⟨[], some ("192.168.1.50", 5556)⟩,
            on_paired_set := true, on_connected_set := true }))
        ⟨["192.168.1.50"], [], 37512⟩) = 1 ∧
    pair_device "123456" (.ok ⟨0, "Successfully paired to 192.168.1.50:37512", ""⟩)
        (some (handle_paired (fun _ => .ok ⟨0, "connected to 192.168.1.50:5556", ""⟩) 0
          { AdbService.init with
            connect_listener := some ⟨[], some ("192.168.1.50", 5556)⟩,
            on_paired_set := true, on_connected_set := true }))
        ⟨["192.168.1.50"], [], 37512⟩ =
      [.invokePair ("192.168.1.50" ++ ":" ++ toString ((⟨["192.168.1.50"], [], 37512⟩ :
          ServiceInfo)).port ++ " " ++ "123456") 30, .onPaired "192.168.1.50"] ++
        (if ({ AdbService.init with
            connect_listener := some ⟨[], some ("192.168.1.50", 5556)⟩,
            on_paired_set := true, on_connected_set := true } :
              AdbService).on_paired_set = true
         then [.onPairedHook "192.168.1.50"] else []) ++
        (try_connect_last_known (fun _ => .ok ⟨0, "connected to 192.168.1.50:5556", ""⟩) 0
          { AdbService.init with
            connect_listener := some ⟨[], some ("192.168.1.50", 5556)⟩,
            on_paired_set := true, on_connected_set := true }).2 := by
  have h := C5_pairing_single_invocation "123456"
      (.ok ⟨0, "Successfully paired to 192.168.1.50:37512", ""⟩)
      (fun _ => .ok ⟨0, "connected to 192.168.1.50:5556", ""⟩) 0
      { AdbService.init with
        connect_listener := some ⟨[], some ("192.168.1.50", 5556)⟩,
        on_paired_set := true, on_connected_set := true }
      ⟨["192.168.1.50"], [], 37512⟩ "192.168.1.50" []
      ("192.168.1.50" ++ ":" ++ toString ((⟨["192.168.1.50"], [], 37512⟩ :
        ServiceInfo)).port ++ " " ++ "123456") rfl rfl
  exact ⟨rfl, h.1,
    h.2.2.2 ⟨0, "Successfully paired to 192.168.1.50:37512", ""⟩ rfl rfl (by decide)⟩

/-- Claim C6: calling `start()` while already Running first performs the
implicit `stop()` — cancelling both of the first session's browsers and
closing its discovery connection — strictly before the second session's
listeners and browsers are registered on a fresh `Zeroconf` instance, so at
most one discovery session is active at any time.  The whole behaviour is
the trace equation below: cancel/close events of the old session precede
all registration events of the new one, and the final state holds exactly
the new session's ids. -/
theorem C6_start_supersession (s : AdbService) (zid bp bc b1 b2 z : Nat)
    (pc cc cl : Bool) (hrun : s.running = true)
    (hpb : s.pairing_browser = some b1) (hcb : s.connect_browser = some b2)
    (hzc : s.zeroconf = some z) :
    start s true true true zid bp bc pc cc cl =
      ({ s with
          zeroconf := some zid,
          pairing_browser := some bp,
          connect_browser := some bc,
          running := true,
          pairing_listener_code := some s.pairing_code,
          connect_listener := some ConnListener.init },
        [.cancelBrowser b1 pc, .cancelBrowser b2 cc, .closeZeroconf z cl,
         .newZeroconf zid, .newBrowser bp PAIRING_SERVICE_TYPE,
         .newBrowser bc CONNECT_SERVICE_TYPE]) := by
  cases s
  simp only at hrun hpb hcb hzc
  subst hrun hpb hcb hzc
  simp [start, stop]

/-- Witness for C6 at a concrete Running state. -/
theorem C6_start_supersession_check :
    runningState.running = true ∧
    start runningState true true true 10 11 12 false false false =
      ({ runningState with
          zeroconf := some 10
          pairing_browser := some 11
          connect_browser := some 12
          pairing_listener_code := some runningState.pairing_code },
       [.cancelBrowser 1 false, .cancelBrowser 2 false, .closeZeroconf 0 false,
        .newZeroconf 10, .newBrowser 11 PAIRING_SERVICE_TYPE,
        .newBrowser 12 CONNECT_SERVICE_TYPE]) := by
  refine ⟨rfl, ?_⟩
  exact C6_start_supersession runningState 10 11 12 1 2 0 false false false
    rfl rfl rfl rfl

/-- Claim C7 counterexample: `generate_credentials` does NOT tear down the
previous session.  From a Running state with active browsers whose pairing
listener holds the old code `"111111"`, after the call the session is still
running with the same browsers and discovery connection, and the installed
listener still holds the OLD pairing code while the service field holds the
new one. -/
theorem C7_generate_credentials_cex :
    (generate_credentials runningState 123456).1.running = true ∧
    (generate_credentials runningState 123456).1.pairing_browser = some 1 ∧
    (generate_credentials runningState 123456).1.zeroconf = some 0 ∧
    (generate_credentials runningState 123456).1.pairing_listener_code = some "111111" ∧
    (generate_credentials runningState 123456).1.pairing_code = "223456" ∧
    ("111111" : String) ≠ "223456" := by
  have hd : Nat.digits 10 223456 = [6, 5, 4, 3, 2, 2] := by simp [Nat.digits_def']
  have hs : decimalStr (123456 + 100000) = "223456" := by
    rw [show (123456 + 100000 : Nat) = 223456 from rfl, decimalStr, decimalChars, hd]
    decide
  exact ⟨rfl, rfl, rfl, rfl, hs, by decide⟩

/-- Claim C7 (amended): `generate_credentials` overwrites `service_name`
(with the fixed label) and `pairing_code` (with the fresh 6-digit code) and
returns both; it does not start discovery and changes NO other field — in
particular it does not tear down a running session: the discovery state,
browsers and the already-installed pairing listener (still bound to the old
code) are untouched until `start()` or `stop()` is called. -/
theorem C7_generate_credentials_amended (s : AdbService) (n : Nat) :
    generate_credentials s n =
      ({ s with service_name := "adbee", pairing_code := decimalStr (n + 100000) },
        "adbee", decimalStr (n + 100000)) ∧
    (generate_credentials s n).1.running = s.running ∧
    (generate_credentials s n).1.zeroconf = s.zeroconf ∧
    (generate_credentials s n).1.pairing_browser = s.pairing_browser ∧
    (generate_credentials s n).1.connect_browser = s.connect_browser ∧
    (generate_credentials s n).1.pairing_listener_code = s.pairing_listener_code ∧
    (generate_credentials s n).1.connect_listener = s.connect_listener := by
  refine ⟨rfl, ?_, ?_, ?_, ?_, ?_, ?_⟩ <;> cases s <;> rfl

/-- Claim C8 counterexample: with the external tool missing, `start()`
called on a RUNNING orchestrator returns with only a warning and the state
unchanged — the orchestrator does NOT remain in / return to Idle: the old
discovery session stays active. -/
theorem C8_start_tool_missing_cex :
    start runningState true false true 10 11 12 false false false =
      (runningState, [.warnNoAdb]) ∧
    (start runningState true false true 10 11 12 false false false).1.running = true := by
  exact ⟨rfl, rfl⟩

/-- Claim C8 (amended): `start()` never raises.  When the zeroconf library
or the external tool is missing it logs a warning and returns with the
state UNCHANGED — so from Idle it remains Idle, but a Running session stays
Running.  When the `Zeroconf()` constructor fails, the implicit stop (when
Running) has already run and the orchestrator ends Idle with no browsers
and no discovery handle. -/
theorem C8_start_failure_amended (s : AdbService) (zid bp bc : Nat)
    (pc cc cl : Bool) :
    (∀ hasAdb zcOk, start s false hasAdb zcOk zid bp bc pc cc cl =
      (s, [.warnNoZeroconf])) ∧
    (∀ zcOk, start s true false zcOk zid bp bc pc cc cl = (s, [.warnNoAdb])) ∧
    ((s.running = false → s.zeroconf = none ∧ s.pairing_browser = none ∧
        s.connect_browser = none) →
      (start s true true false zid bp bc pc cc cl).1.running = false ∧
      (start s true true false zid bp bc pc cc cl).1.zeroconf = none ∧
      (start s true true false zid bp bc pc cc cl).1.pairing_browser = none ∧
      (start s true true false zid bp bc pc cc cl).1.connect_browser = none) := by
  refine ⟨?_, ?_, ?_⟩
  · intro hasAdb zcOk
    simp [start]
  · intro zcOk
    simp [start]
  · intro hwf
    rcases hr : s.running with _ | _
    · rcases hwf hr with ⟨h1, h2, h3⟩
      simp [start, hr, h1, h2, h3]
    · simp [start, stop, hr]

/-- Witness for C8 (amended) at a concrete input: from the freshly
constructed (Idle) orchestrator with a failing `Zeroconf()` constructor,
`start` ends Idle with no discovery handle. -/
theorem C8_start_failure_amended_check :
    (AdbService.init.running = false → AdbService.init.zeroconf = none ∧
      AdbService.init.pairing_browser = none ∧
      AdbService.init.connect_browser = none) ∧
    (start AdbService.init true true false 10 11 12 false false false).1.running =
      false ∧
    (start AdbService.init true true false 10 11 12 false false false).1.zeroconf =
      none := by
  have h := (C8_start_failure_amended AdbService.init 10 11 12 false false false).2.2
    (fun _ => ⟨rfl, rfl, rfl⟩)
  exact ⟨fun _ => ⟨rfl, rfl, rfl⟩, h.1, h.2.1⟩

theorem char_ofNat_digit_toNat : ∀ d, d < 10 → (Char.ofNat (48 + d)).toNat = 48 + d := by
  decide

theorem char_ofNat_digit_isDigit : ∀ d, d < 10 → (Char.ofNat (48 + d)).isDigit = true := by
  decide

theorem decimalChars_length (m : Nat) (h1 : 100000 ≤ m) (h2 : m < 1000000) :
    (decimalChars m).length = 6 := by
  have hm0 : m ≠ 0 := by omega
  rw [decimalChars, List.length_map, List.length_reverse,
    Nat.digits_len 10 m (by norm_num) hm0]
  have hlog : Nat.log 10 m = 5 := by
    apply Nat.log_eq_of_pow_le_of_lt_pow
    · norm_num
      omega
    · norm_num
      omega
  omega

theorem decimalChars_all_digits (m : Nat) :
    ∀ c ∈ decimalChars m, c.isDigit = true := by
  intro c hc
  rw [decimalChars] at hc
  simp only [List.mem_map, List.mem_reverse] at hc
  obtain ⟨d, hd, rfl⟩ := hc
  exact char_ofNat_digit_isDigit d (Nat.digits_lt_base (by norm_num) hd)

theorem decode_decimalStr (m : Nat) : decodeDecimal (decimalStr m) = m := by
  rw [decodeDecimal, decimalStr, decimalChars]
  show Nat.ofDigits 10
    ((((Nat.digits 10 m).reverse.map fun d => Char.ofNat (48 + d)).map
      fun c => c.toNat - 48).reverse) = m
  rw [List.map_map]
  have hmap : (Nat.digits 10 m).reverse.map
      ((fun c => c.toNat - 48) ∘ fun d => Char.ofNat (48 + d)) =
      (Nat.digits 10 m).reverse.map id := by
    apply List.map_congr_left
    intro d hd
    have hlt : d < 10 := Nat.digits_lt_base (by norm_num) (List.mem_reverse.mp hd)
    simp [Function.comp, char_ofNat_digit_toNat d hlt]
  rw [hmap, List.map_id, List.reverse_reverse, Nat.ofDigits_digits]

theorem decimalStr_injective (m1 m2 : Nat) (h : decimalStr m1 = decimalStr m2) :
    m1 = m2 := by
  have h2 := congrArg decodeDecimal h
  rwa [decode_decimalStr, decode_decimalStr] at h2

/-- Claim C9: every pairing code produced by `generate_credentials` from a
draw `n = secrets.randbelow(900000)` is the decimal string of `n + 100000`:
exactly 6 ASCII digits, value in `[100000, 999999]`; the draw-to-code map
is injective and every value of the range is reached (so a uniform draw
yields a uniformly distributed code); the returned service name is the
fixed label `"adbee"`. -/
theorem C9_pairing_code_format (s : AdbService) (n : Nat) (h : n < 900000) :
    ((generate_credentials s n).2.2).length = 6 ∧
    (∀ c ∈ ((generate_credentials s n).2.2).data, c.isDigit = true) ∧
    (generate_credentials s n).2.2 = decimalStr (n + 100000) ∧
    100000 ≤ n + 100000 ∧ n + 100000 ≤ 999999 ∧
    (generate_credentials s n).2.1 = "adbee" ∧
    (generate_credentials s n).1.service_name = "adbee" ∧
    (∀ n2, n2 < 900000 → decimalStr (n + 100000) = decimalStr (n2 + 100000) →
      n = n2) ∧
    (∀ m, 100000 ≤ m → m ≤ 999999 → ∃ j, j < 900000 ∧ j + 100000 = m) := by
  refine ⟨?_, ?_, rfl, by omega, by omega, rfl, rfl, ?_, ?_⟩
  · exact decimalChars_length (n + 100000) (by omega) (by omega)
  · exact decimalChars_all_digits (n + 100000)
  · intro n2 _ heq
    have := decimalStr_injective (n + 100000) (n2 + 100000) heq
    omega
  · intro m h1 h2
    exact ⟨m - 100000, by omega, by omega⟩

/-- Witness for C9 at the concrete draw `n = 3` (code `"100003"`). -/
theorem C9_pairing_code_format_check :
    3 < 900000 ∧ ((generate_credentials AdbService.init 3).2.2).length = 6 ∧
    (generate_credentials AdbService.init 3).2.1 = "adbee" := by
  have h := C9_pairing_code_format AdbService.init 3 (by decide)
  exact ⟨by decide, h.1, h.2.2.2.2.2.1⟩

/-- Claim C10: for every orchestrator state — never started, already
stopped, or with `cancel()`/`close()` raising (the `raised` flags) —
`stop()` never raises (it is total for every flag combination) and on
return both browser fields and the discovery handle are `none` and the
running flag is `false`; calling `stop()` again is a no-op: it performs no
cancel/close attempt (empty trace) and leaves the state unchanged. -/
theorem C10_stop_idempotent (s : AdbService) (pc cc cl pc2 cc2 cl2 : Bool) :
    (stop s pc cc cl).1.pairing_browser = none ∧
    (stop s pc cc cl).1.connect_browser = none ∧
    (stop s pc cc cl).1.zeroconf = none ∧
    (stop s pc cc cl).1.running = false ∧
    stop (stop s pc cc cl).1 pc2 cc2 cl2 = ((stop s pc cc cl).1, []) := by
  cases s
  refine ⟨rfl, rfl, rfl, rfl, ?_⟩
  simp [stop]

end Adbee
